import Mathlib

/-!
Verification development for the forest snapshot pipeline
(roles/forest_snapshots/files): a shallow embedding of the Python workers
(build_snapshots.py, upload_snapshots.py, validate_snapshots.py,
compute_state.py, snapshot.py) as executable Lean definitions, together
with theorems settling the behavioural claims about them.

External effects (subprocess exit codes, S3 HEAD results, directory
listings, broker deliveries) are passed in as explicit parameters, and
the broker/metrics/notification calls a worker makes are recorded as an
effect trace.
-/

namespace ForestSnapshots

/-! ### Python string and path helpers

`os.path.basename` / `os.path.dirname` restricted to `/`-separated paths,
`str.strip`, substring search (Python `in`), `str.endswith`, and parsing
of the decimal digits that follow a marker substring.  All operate on the
underlying character lists. -/

/-- Character-list version of `os.path.basename`: the suffix after the last `/`. -/
def basenameL (l : List Char) : List Char :=
  (l.reverse.takeWhile (· != '/')).reverse

/-- Character-list version of `os.path.dirname`: everything before the last `/`
(empty when there is no `/`). -/
def dirnameL (l : List Char) : List Char :=
  ((l.reverse.dropWhile (· != '/')).drop 1).reverse

/-- Python `os.path.basename`. -/
def basename (s : String) : String := String.mk (basenameL s.data)

/-- Python `os.path.dirname`. -/
def dirname (s : String) : String := String.mk (dirnameL s.data)

/-- Python `str.strip()` on a character list (whitespace from both ends). -/
def stripL (l : List Char) : List Char :=
  ((l.dropWhile Char.isWhitespace).reverse.dropWhile Char.isWhitespace).reverse

/-- Python `str.strip()`. -/
def pyStrip (s : String) : String := String.mk (stripL s.data)

/-- Does `l` start with `p`? (list-level `str.startswith`). -/
def startsL : List Char → List Char → Bool
  | _, [] => true
  | [], _ :: _ => false
  | a :: as, b :: bs => a = b && startsL as bs

/-- Python `needle in hay` on character lists. -/
def containsL (hay needle : List Char) : Bool :=
  startsL hay needle ||
    match hay with
    | [] => false
    | _ :: t => containsL t needle

/-- Python `hay.endswith(needle)` on character lists. -/
def endsL (hay needle : List Char) : Bool :=
  startsL hay.reverse needle.reverse

/-- Decimal number denoted by a digit list (most significant first). -/
def natOfDigits (l : List Char) : Nat :=
  l.foldl (fun n c => 10 * n + (c.toNat - 48)) 0

/-- The maximal digit run right after the first occurrence of `needle` in
`hay`, if `needle` occurs; models the regex `needle(\d+)` first match. -/
def digitsAfterL (hay needle : List Char) : Option (List Char) :=
  if startsL hay needle then
    some ((hay.drop needle.length).takeWhile Char.isDigit)
  else
    match hay with
    | [] => none
    | _ :: t => digitsAfterL t needle

/-- Epoch recovered from a snapshot file name: the digits after `height_`
(spec section 6 filename grammar: `height_(\d+)` on the basename). -/
def parseHeight (name : String) : Option Nat :=
  match digitsAfterL name.data "height_".data with
  | some ds => if ds.isEmpty then none else some (natOfDigits ds)
  | none => none

/-! ### Broker queues and worker effect traces -/

/-- The `RabbitQueue` enum of rabbitmq.py (exchange/queue names). -/
inductive RQueue
  | compute
  | snapshot
  | snapshotLatest
  | snapshotDiff
  | validate
  | validateFailed
  | upload
  | uploadFailed
deriving DecidableEq

/-- One observable action of a worker: metric increments, broker
acknowledgements, publishes, chat notifications, subprocess spawns. -/
inductive Eff
  | incSuccess
  | incFailure
  | ack (tag : Nat)
  | reject (tag : Nat) (requeue : Bool)
  | produce (q : RQueue) (body : String)
  | notify (message status : String) (threadTs : Option String)
  | spawn (cmd : String)
deriving DecidableEq

/-- Is an effect a broker publish? -/
def Eff.isProduce : Eff → Bool
  | .produce _ _ => true
  | _ => false

/-- Is an effect a chat notification? -/
def Eff.isNotify : Eff → Bool
  | .notify _ _ _ => true
  | _ => false

/-! ### Validate worker (validate_snapshots.py) -/

/-- Result of `validate_snapshot` together with which of the two
validations actually ran and the final `validation.success` flag. -/
structure ValidateOutcome where
  result : Bool
  ranForest : Bool
  ranLotus : Bool
  validationSuccess : Bool
deriving DecidableEq

/-- validate_snapshots.py `validate_snapshot` (lines 190-208).
`forestOk` / `lotusOk` are the outcomes of the `forest_validate` and
`lotus_validate` subprocess drivers (external, passed as oracles);
`buildPath` is `metadata.build_information.build_path` and
`successBefore` the incoming `validation.success` flag.  The snapshot
type is `os.path.basename(os.path.dirname(build_path))`; only for
`latest-v1`, `latest-v2` and `lite` are the two validations run.  (The
validator-version stamping of lines 197-198 touches fields not projected
into the outcome.) -/
def validate_snapshot (forestOk lotusOk : Bool) (buildPath : String)
    (successBefore : Bool) : ValidateOutcome :=
  let snapshotType := basename (dirname buildPath)
  if snapshotType ∈ (["latest-v1", "latest-v2", "lite"] : List String) then
    if !forestOk then ⟨false, true, false, false⟩
    else if !lotusOk then ⟨false, true, true, false⟩
    else ⟨true, true, true, true⟩
  else ⟨true, false, false, successBefore⟩

/-! ### Upload worker (upload_snapshots.py) -/

/-- Which configured bucket name an upload targets:
`R2_ARCHIVE_BUCKET_NAME`, `R2_LATEST_BUCKET_NAME` or
`R2_LATEST_V2_BUCKET_NAME`. -/
inductive BucketSel
  | archive
  | latest
  | latestV2
deriving DecidableEq

/-- Outcome of the initial `s3.head_object` call in `r2_upload_artifact`:
the object exists, a `ClientError` with code 404, or any other
`ClientError`. -/
inductive S3Head
  | present
  | missing
  | errorOther
deriving DecidableEq

/-- What one `r2_upload_artifact` call did: its return value, whether
`s3.upload_file` was invoked, and the bucket/key it addressed. -/
structure UploadAttempt where
  ok : Bool
  didPut : Bool
  bucket : BucketSel
  key : String
deriving DecidableEq

/-- upload_snapshots.py `r2_upload_artifact` (lines 134-170).  `chain` is
the `CHAIN` env value; `head` the result of the HEAD probe and `putOk`
whether `s3.upload_file` succeeds (an exception there is caught by the
outer handler and turns into `False`).  The destination folder is
`os.path.basename(os.path.dirname(file_path))`; `latest-v2` selects
`LATEST_V2_BUCKET_NAME`, `latest` selects `LATEST_BUCKET_NAME`, anything
else the archive bucket; the key is `f"{CHAIN}/{destination}/{basename}"`.
If HEAD finds the object the function returns `True` without uploading;
on a 404 it uploads; on any other HEAD error the exception propagates to
the outer handler, which returns `False`. -/
def r2_upload_artifact (chain filePath : String) (head : S3Head)
    (putOk : Bool) : UploadAttempt :=
  let bn := basename filePath
  let destination := basename (dirname filePath)
  let key := chain ++ "/" ++ destination ++ "/" ++ bn
  let bucket : BucketSel :=
    if destination = "latest-v2" then .latestV2
    else if destination = "latest" then .latest
    else .archive
  match head with
  | .present => ⟨true, false, bucket, key⟩
  | .missing => ⟨putOk, true, bucket, key⟩
  | .errorOther => ⟨false, false, bucket, key⟩

/-- The three artifacts `upload_snapshot` (lines 173-178) pushes through
`r2_upload_artifact`, in call order: the sha256 sidecar (via
`upload_sha256`), the metadata JSON sidecar (via `upload_metadata`), and
the main snapshot blob. -/
def upload_snapshot_puts (snapshotPath : String) : List String :=
  [snapshotPath ++ ".sha256sum", snapshotPath ++ ".metadata.json", snapshotPath]

/-- upload_snapshots.py `TIMEOUT_SECONDS` (line 28): the join deadline of
the upload worker task. -/
def UPLOAD_TIMEOUT_SECONDS : Nat := 40 * 60

/-- upload_snapshots.py `process_snapshot` (lines 181-205).  `timedOut`
is `thread.is_alive()` after `thread.join(TIMEOUT_SECONDS)`; `uploadOk`
the result of `upload_snapshot`; `body` the consumed message body (the
`snapshot_path` argument).  Returns the effect trace. -/
def upload_process_snapshot (timedOut uploadOk : Bool) (deliveryTag : Nat)
    (body : String) : List Eff :=
  if timedOut then
    [.incFailure, .reject deliveryTag true]
  else if uploadOk then
    [.incSuccess, .ack deliveryTag, .produce .upload body]
  else
    [.incFailure, .reject deliveryTag false, .produce .uploadFailed body]

/-! ### Build worker (build_snapshots.py) -/

/-- The snapshot file name composed in `build_snapshot` (line 160) from
the variant, `CHAIN`, the epoch date and the epoch. -/
def snapshotFilename (chain date : String) (epoch : Nat) (diff : Bool) : String :=
  "forest_" ++ (if diff then "diff" else "snapshot") ++ "_" ++ chain ++ "_" ++ date
    ++ "_height_" ++ toString epoch ++ (if diff then "+3000" else "")
    ++ ".forest.car.zst"

/-- The target path `f"{folder}/..."` of `build_snapshot` (line 160). -/
def snapshotTargetPath (folder chain date : String) (epoch : Nat) (diff : Bool) : String :=
  folder ++ "/" ++ snapshotFilename chain date epoch diff

/-- build_snapshots.py `_resolve_snapshot_path` (lines 51-62) over the
`os.listdir(folder)` listing `entries`: the first entry that contains
`height_<epoch>` as a substring and ends in `.forest.car.zst`, joined to
the folder; `none` when no entry matches (or listdir raised). -/
def resolveSnapshotPath (folder : String) (epoch : Nat) : List String → Option String
  | [] => none
  | name :: rest =>
    if containsL name.data ("height_" ++ toString epoch).data
        && endsL name.data ".forest.car.zst".data then
      some (folder ++ "/" ++ name)
    else resolveSnapshotPath folder epoch rest

/-- The `build_path` stored in the metadata envelope `build_snapshot`
publishes (lines 206 and 217): the resolved folder scan result, falling
back to the composed target path. -/
def publishedBuildPath (folder chain date : String) (epoch : Nat) (diff : Bool)
    (entries : List String) : String :=
  (resolveSnapshotPath folder epoch entries).getD
    (snapshotTargetPath folder chain date epoch diff)

/-- Routing of the metadata envelope in `build_snapshot` (lines 225-230):
`latest-v1`/`latest-v2` to `snapshot-latest`, `lite` to `snapshot`,
`diff` to `snapshot-diff`, and no publish for any other folder name. -/
def buildRoute (snapshotType : String) : Option RQueue :=
  if snapshotType ∈ (["latest-v1", "latest-v2"] : List String) then some .snapshotLatest
  else if snapshotType = "lite" then some .snapshot
  else if snapshotType = "diff" then some .snapshotDiff
  else none

/-- Outcome of one `forest-cli snapshot export` attempt inside
`build_snapshot`'s retry loop: the subprocess exit code, whether its
output contained the re-entrancy sentinel
`Another chain export job is still in progress`, whether the target file
exists afterwards, and the folder listing used by the resolve step. -/
structure BuildAttempt where
  exitCode : Int
  sentinelRetry : Bool
  fileMade : Bool
  entries : List String
deriving DecidableEq

/-- The retry loop of `build_snapshot` (lines 168-240), with `fuel`
bounding the unbounded sentinel-retry loop and `attempts n` the outcome
of the `n`-th spawn.  `argv` is the joined command, `metaJson` the JSON
text of the harvested metadata envelope (the `archive metadata` /
`archive info` harvesting is external), `buildTs` the thread anchor
returned by the opening notification. -/
def buildSnapshotLoop (epoch : Nat) (folder chain date : String) (diff : Bool)
    (argv metaJson : String) (buildTs : Option String)
    (attempts : Nat → BuildAttempt) : Nat → Nat → List Eff × (String × Bool)
  | 0, _ => ([], ("", false))
  | fuel + 1, n =>
    let snapshot := snapshotTargetPath folder chain date epoch diff
    let snapshotType := basename folder
    let a := attempts n
    let pre : List Eff :=
      [.notify ("Creating " ++ snapshotType ++ " Snapshot: " ++ snapshot) "info" none,
        .spawn argv]
    if a.exitCode ≠ 0 ∧ a.sentinelRetry then
      let r := buildSnapshotLoop epoch folder chain date diff argv metaJson buildTs attempts fuel (n + 1)
      (pre ++ r.1, r.2)
    else if a.exitCode ≠ 0 ∨ ¬ a.fileMade then
      (pre ++ [.incFailure,
        .notify ("Build snapshot " ++ snapshotType ++ " " ++ toString epoch ++ " failed")
          "failed" buildTs],
        ("", false))
    else
      let resolved := (resolveSnapshotPath folder epoch a.entries).getD snapshot
      (pre ++ [.incSuccess]
        ++ (match buildRoute snapshotType with
            | some q => [.produce q metaJson]
            | none => [])
        ++ [.notify ("Build snapshot " ++ snapshotType ++ " " ++ toString epoch ++ " succeeded")
              "success" buildTs],
        (resolved, true))

/-- build_snapshots.py `build_snapshot` (lines 152-240).  `fs` is the set
of paths existing on disk at entry: when the composed target path already
exists the function returns `(path, True)` immediately, with no effects
(in particular no spawn); otherwise the retry loop runs. -/
def build_snapshot (fuel epoch : Nat) (folder chain date : String) (diff : Bool)
    (argv metaJson : String) (buildTs : Option String)
    (attempts : Nat → BuildAttempt) (fs : List String) : List Eff × (String × Bool) :=
  let snapshot := snapshotTargetPath folder chain date epoch diff
  if snapshot ∈ fs then ([], (snapshot, true))
  else buildSnapshotLoop epoch folder chain date diff argv metaJson buildTs attempts fuel 0

/-- Python `range(start, stop, step)` for a positive step: the values
`start + k * step` below `stop` (empty for `step = 0`, where Python would
raise instead). -/
def pyRange (start stop step : Nat) : List Nat :=
  (List.range ((stop - start + step - 1) / step)).map (fun k => start + k * step)

/-- SNAPSHOT_CONFIGS lite depth (forest_helpers.py line 13). -/
def liteDepth : Nat := 30000

/-- SNAPSHOT_CONFIGS diff depth (forest_helpers.py line 18). -/
def diffDepth : Nat := 3000

/-- build_snapshots.py `build_historic_snapshots` (lines 321-338): the
lite epochs processed in one outer pass — the cursor recovered from the
head of `snapshot` is rounded down to a multiple of the lite depth and
the loop runs `range(cursor + depth, current, depth)`, guarded by
`current - cursor > depth`. -/
def buildHistoricLiteEpochs (liteHead currentEpoch : Nat) : List Nat :=
  let cursor := liteHead / liteDepth * liteDepth
  if currentEpoch - cursor > liteDepth then
    pyRange (cursor + liteDepth) currentEpoch liteDepth
  else []

/-- build_snapshots.py `build_historic_snapshots` (lines 322, 340-350):
the diff epochs processed in one outer pass, analogous at depth 3000. -/
def buildHistoricDiffEpochs (diffHead currentEpoch : Nat) : List Nat :=
  let cursor := diffHead / diffDepth * diffDepth
  if currentEpoch - cursor > diffDepth then
    pyRange (cursor + diffDepth) currentEpoch diffDepth
  else []

/-! ### Compute worker (compute_state.py) -/

/-- The joined argv of the whole-batch state compute invocation
(compute_state.py lines 38-42). -/
def batchCmd (epoch B : Nat) : String :=
  "forest-cli state compute --epoch " ++ toString ((epoch : Int) - 1)
    ++ " --n-epochs " ++ toString B

/-- The joined argv of one per-epoch fallback invocation
(compute_state.py lines 58-61). -/
def perEpochCmd (e : Nat) : String :=
  "forest-cli state compute --epoch " ++ toString e

/-- The per-epoch fallback loop of `compute_state` (lines 55-73): run the
epochs in order; the first failing one notifies, increments the failure
metric and raises (second component `false`). -/
def perEpochRun (perEpochOk : Nat → Bool) : List Nat → List Eff × Bool
  | [] => ([], true)
  | e :: rest =>
    if perEpochOk e then
      let r := perEpochRun perEpochOk rest
      (.spawn (perEpochCmd e) :: r.1, r.2)
    else
      ([.spawn (perEpochCmd e), .incFailure,
        .notify ("Epochs " ++ toString e ++ " compute failed") "failed" none],
        false)

/-- compute_state.py `compute_state` (lines 31-86).  `batchOk` is whether
the whole-batch invocation exits zero; only then is the cursor
`epoch + COMPUTE_BATCH_SIZE` published to `compute`.  On batch failure
the per-epoch fallback runs over `range(epoch, epoch + B)` and publishes
nothing; a per-epoch failure raises, and the enclosing handler increments
the failure metric once more.  The second component is `true` when the
call returns normally. -/
def compute_state (B epoch : Nat) (batchOk : Bool) (perEpochOk : Nat → Bool) :
    List Eff × Bool :=
  if batchOk then
    ([.spawn (batchCmd epoch B), .incSuccess,
      .produce .compute (toString (epoch + B))], true)
  else
    let r := perEpochRun perEpochOk (pyRange epoch (epoch + B) 1)
    (.spawn (batchCmd epoch B) :: r.1 ++ (if r.2 then [] else [.incFailure]), r.2)

/-- The inner batch loop of compute_state.py `main` (lines 104-112): run
`compute_state` on each batch start; an exception breaks the loop. -/
def computeMainLoop (B : Nat) (batchOk : Nat → Bool) (perEpochOk : Nat → Bool) :
    List Nat → List Eff
  | [] => []
  | e :: rest =>
    let r := compute_state B e (batchOk e) perEpochOk
    r.1 ++ (if r.2 then computeMainLoop B batchOk perEpochOk rest else [])

/-- compute_state.py `main` (lines 89-112), one pass of the outer loop:
the cursor is recovered from the head of `compute` (else
`DEFAULT_START_EPOCH`), rounded down to a multiple of
`COMPUTE_BATCH_SIZE`, and batches run from there to the current epoch. -/
def compute_main (B dflt : Nat) (queueHead : Option Nat) (currentEpoch : Nat)
    (batchOk : Nat → Bool) (perEpochOk : Nat → Bool) : List Eff :=
  let start := (queueHead.getD dflt) / B * B
  computeMainLoop B batchOk perEpochOk (pyRange start currentEpoch B)

/-! ### Archive-report parser (gather_archive_metadata)

The parser appears identically in build_snapshots.py (lines 88-114) and
upload_snapshots.py (lines 55-82); it folds the `key: value` /
continuation-line report format of the two archive tool invocations into
a dict.  Python dict values here are either a string or a list of
strings; `data[current_key]` access on a missing key would raise
`KeyError`, which the embedding surfaces as `Except.error`. -/

/-- A value of the parsed report dict: a plain string or a list of
continuation values. -/
inductive PyVal
  | s (v : String)
  | l (vs : List String)
deriving DecidableEq

/-- Python dict lookup over an insertion-ordered association list. -/
def dictGet (d : List (String × PyVal)) (k : String) : Option PyVal :=
  match d with
  | [] => none
  | (k', v) :: rest => if k = k' then some v else dictGet rest k

/-- Python dict assignment: update in place, else append. -/
def dictSet (d : List (String × PyVal)) (k : String) (v : PyVal) :
    List (String × PyVal) :=
  match d with
  | [] => [(k, v)]
  | (k', v') :: rest => if k = k' then (k', v) :: rest else (k', v') :: dictSet rest k v

/-- Python `line.split(":", 1)` when a colon is present: the part before
the first `:` and the rest; `none` when the line has no colon. -/
def splitFirstColon : List Char → Option (List Char × List Char)
  | [] => none
  | c :: rest =>
    if c = ':' then some ([], rest)
    else
      match splitFirstColon rest with
      | some (k, v) => some (c :: k, v)
      | none => none

/-- One line of the `gather_archive_metadata` loop body: skip blank
lines; a `key: value` line binds the stripped key (empty value starts a
list); a continuation line appends to the current key's value when
`current_key` is truthy (non-None and non-empty) and is discarded
otherwise. -/
def stepLine (st : List (String × PyVal) × Option String) (line : String) :
    Except String (List (String × PyVal) × Option String) :=
  if pyStrip line = "" then .ok st
  else
    match splitFirstColon line.data with
    | some (k, v) =>
      let key := pyStrip (String.mk k)
      let value := pyStrip (String.mk v)
      if value ≠ "" then .ok (dictSet st.1 key (.s value), some key)
      else .ok (dictSet st.1 key (.l []), some key)
    | none =>
      match st.2 with
      | some ck =>
        if ck ≠ "" then
          match dictGet st.1 ck with
          | some (.l xs) => .ok (dictSet st.1 ck (.l (xs ++ [pyStrip line])), some ck)
          | some (.s old) => .ok (dictSet st.1 ck (.l [old, pyStrip line]), some ck)
          | none => .error "KeyError"
        else .ok st
      | none => .ok st

/-- Fold `stepLine` over a list of lines, propagating a raised error. -/
def runLines (st : List (String × PyVal) × Option String) :
    List String → Except String (List (String × PyVal) × Option String)
  | [] => .ok st
  | line :: rest =>
    match stepLine st line with
    | .ok st' => runLines st' rest
    | .error e => .error e

/-- `gather_archive_metadata(archive_metadata, archive_info)`: both line
lists are processed in order into one dict, starting from an empty dict
and no current key. -/
def gather_archive_metadata (md info : List String) :
    Except String (List (String × PyVal)) :=
  (runLines ([], none) (md ++ info)).map (·.1)

/-! ### Metadata envelope (snapshot.py)

The pydantic models `Validation`, `BuildInformation`, `Snapshot`,
`SnapshotMetadata` (snapshot.py lines 10-52) and their JSON codec.
`to_json` is `model_dump_json(by_alias=True, indent=2)`: every field is
emitted under its alias, in declaration order, with `None` as `null`.
`from_json` is `json.loads` + `model_validate` with
`populate_by_name=True`: each field is read from its alias key first,
then its field name; a missing optional field takes its declared
default, an explicit `null` yields `None`, and a type mismatch (or a
missing required field) fails validation.  `datetime` values are
represented by their canonical ISO-8601 rendering (an opaque string
here); JSON string escaping is not modeled. -/

/-- A parsed JSON document (`json.loads` output). -/
inductive Json
  | jnull
  | jbool (b : Bool)
  | jint (n : Int)
  | jstr (s : String)
  | jarr (xs : List Json)
  | jobj (kvs : List (String × Json))

/-- Is this JSON value `null`? -/
def Json.isNull : Json → Bool
  | .jnull => true
  | _ => false

/-- A Python `datetime`, identified with its canonical ISO-8601 text. -/
structure PyDatetime where
  iso : String
deriving DecidableEq

/-- snapshot.py `Validation` (lines 10-16). -/
structure Validation where
  success : Option Bool
  forest_version : Option String
  lotus_version : Option String
  validation_date : Option PyDatetime
deriving DecidableEq

/-- The pydantic defaults of `Validation` (its `Validation()` value). -/
def defaultValidation : Validation :=
  ⟨some false, some "unknown", some "unknown", none⟩

/-- snapshot.py `BuildInformation` (lines 19-27). -/
structure BuildInformation where
  epoch : Option Int
  epoch_date : Option PyDatetime
  build_path : Option String
  build_timestamp : Option String
  build_date : Option PyDatetime
  validation : Option Validation
deriving DecidableEq

/-- The pydantic defaults of `BuildInformation`. -/
def defaultBuildInformation : BuildInformation :=
  ⟨some 0, none, some "", some "", none, some defaultValidation⟩

/-- snapshot.py `Snapshot` (lines 30-45); `head_tipset` is
`Union[str, List[str]]`. -/
structure Snapshot where
  snapshot_version : String
  head_tipset : String ⊕ List String
  f3_data : Option String
  f3_snapshot_version : Option String
  f3_snapshot_first_instance : Option Int
  f3_snapshot_last_instance : Option Int
  car_format : String
  network : String
  epoch : Int
  state_roots : Int
  sha256 : Option String
  messages_sets : Int
  index_size : String
deriving DecidableEq

/-- snapshot.py `SnapshotMetadata` (lines 48-52). -/
structure SnapshotMetadata where
  snapshot : Snapshot
  build_information : Option BuildInformation
deriving DecidableEq

/-- Optional-field serialization: `None` dumps as `null`. -/
def encOpt (enc : α → Json) : Option α → Json
  | none => .jnull
  | some a => enc a

/-- Datetime serialization: the ISO-8601 string. -/
def encDT (d : PyDatetime) : Json := .jstr d.iso

/-- `Union[str, List[str]]` serialization. -/
def encTipset : String ⊕ List String → Json
  | .inl s => .jstr s
  | .inr l => .jarr (l.map Json.jstr)

/-- `Validation.model_dump` with aliases, in declaration order. -/
def Validation.toJsonV (x : Validation) : Json :=
  .jobj [("Success", encOpt Json.jbool x.success),
         ("Forest version", encOpt Json.jstr x.forest_version),
         ("Lotus version", encOpt Json.jstr x.lotus_version),
         ("Validation date", encOpt encDT x.validation_date)]

/-- `BuildInformation.model_dump` with aliases, in declaration order. -/
def BuildInformation.toJsonV (x : BuildInformation) : Json :=
  .jobj [("Epoch", encOpt Json.jint x.epoch),
         ("Epoch date", encOpt encDT x.epoch_date),
         ("Build path", encOpt Json.jstr x.build_path),
         ("Build timestamp", encOpt Json.jstr x.build_timestamp),
         ("Build date", encOpt encDT x.build_date),
         ("Validation", encOpt Validation.toJsonV x.validation)]

/-- `Snapshot.model_dump` with aliases, in declaration order. -/
def Snapshot.toJsonV (x : Snapshot) : Json :=
  .jobj [("Snapshot version", Json.jstr x.snapshot_version),
         ("Head Tipset", encTipset x.head_tipset),
         ("F3 data", encOpt Json.jstr x.f3_data),
         ("F3 snapshot version", encOpt Json.jstr x.f3_snapshot_version),
         ("F3 snapshot first instance", encOpt Json.jint x.f3_snapshot_first_instance),
         ("F3 snapshot last instance", encOpt Json.jint x.f3_snapshot_last_instance),
         ("CAR format", Json.jstr x.car_format),
         ("Network", Json.jstr x.network),
         ("Epoch", Json.jint x.epoch),
         ("State-roots", Json.jint x.state_roots),
         ("Sha256", encOpt Json.jstr x.sha256),
         ("Messages sets", Json.jint x.messages_sets),
         ("Index size", Json.jstr x.index_size)]

/-- `SnapshotMetadata.model_dump` with aliases, in declaration order. -/
def SnapshotMetadata.toJsonV (x : SnapshotMetadata) : Json :=
  .jobj [("Snapshot", Snapshot.toJsonV x.snapshot),
         ("Build Information", encOpt BuildInformation.toJsonV x.build_information)]

/-- Object key lookup (first occurrence). -/
def jlookup (kvs : List (String × Json)) (key : String) : Option Json :=
  match kvs with
  | [] => none
  | (k, v) :: rest => if key = k then some v else jlookup rest key

/-- Field extraction with `populate_by_name`: the alias key, else the
field name. -/
def getField (kvs : List (String × Json)) (aliasKey nameKey : String) : Option Json :=
  match jlookup kvs aliasKey with
  | some j => some j
  | none => jlookup kvs nameKey

/-- Bool field validation. -/
def asBool : Json → Option Bool
  | .jbool b => some b
  | _ => none

/-- Str field validation. -/
def asStr : Json → Option String
  | .jstr s => some s
  | _ => none

/-- Int field validation. -/
def asInt : Json → Option Int
  | .jint n => some n
  | _ => none

/-- Datetime field validation (canonical ISO text). -/
def asDT : Json → Option PyDatetime
  | .jstr s => some ⟨s⟩
  | _ => none

/-- List-of-str element validation. -/
def asStrList : List Json → Option (List String)
  | [] => some []
  | j :: rest =>
    match asStr j, asStrList rest with
    | some s, some l => some (s :: l)
    | _, _ => none

/-- `Union[str, List[str]]` validation. -/
def asTipset : Json → Option (String ⊕ List String)
  | .jstr s => some (.inl s)
  | .jarr xs => (asStrList xs).map .inr
  | _ => none

/-- Optional field with default: missing key → declared default,
explicit `null` → `None`, anything else must validate. -/
def decOptF (dec : Json → Option α) (dflt : Option α)
    (kvs : List (String × Json)) (aliasKey nameKey : String) : Option (Option α) :=
  match getField kvs aliasKey nameKey with
  | none => some dflt
  | some j => if j.isNull then some none else (dec j).map some

/-- Required field: missing key or failed validation rejects the
document. -/
def decReqF (dec : Json → Option α)
    (kvs : List (String × Json)) (aliasKey nameKey : String) : Option α :=
  match getField kvs aliasKey nameKey with
  | none => none
  | some j => dec j

/-- `Validation.model_validate` on a parsed JSON value. -/
def Validation.fromJsonV : Json → Option Validation
  | .jobj kvs => do
    let s ← decOptF asBool (some false) kvs "Success" "success"
    let fv ← decOptF asStr (some "unknown") kvs "Forest version" "forest_version"
    let lv ← decOptF asStr (some "unknown") kvs "Lotus version" "lotus_version"
    let vd ← decOptF asDT none kvs "Validation date" "validation_date"
    pure ⟨s, fv, lv, vd⟩
  | _ => none

/-- `BuildInformation.model_validate` on a parsed JSON value. -/
def BuildInformation.fromJsonV : Json → Option BuildInformation
  | .jobj kvs => do
    let e ← decOptF asInt (some 0) kvs "Epoch" "epoch"
    let ed ← decOptF asDT none kvs "Epoch date" "epoch_date"
    let bp ← decOptF asStr (some "") kvs "Build path" "build_path"
    let bt ← decOptF asStr (some "") kvs "Build timestamp" "build_timestamp"
    let bd ← decOptF asDT none kvs "Build date" "build_date"
    let va ← decOptF Validation.fromJsonV (some defaultValidation) kvs "Validation" "validation"
    pure ⟨e, ed, bp, bt, bd, va⟩
  | _ => none

/-- `Snapshot.model_validate` on a parsed JSON value. -/
def Snapshot.fromJsonV : Json → Option Snapshot
  | .jobj kvs => do
    let sv ← decReqF asStr kvs "Snapshot version" "snapshot_version"
    let ht ← decReqF asTipset kvs "Head Tipset" "head_tipset"
    let f3d ← decOptF asStr none kvs "F3 data" "f3_data"
    let f3v ← decOptF asStr none kvs "F3 snapshot version" "f3_snapshot_version"
    let f3f ← decOptF asInt none kvs "F3 snapshot first instance" "f3_snapshot_first_instance"
    let f3l ← decOptF asInt none kvs "F3 snapshot last instance" "f3_snapshot_last_instance"
    let cf ← decReqF asStr kvs "CAR format" "car_format"
    let nw ← decReqF asStr kvs "Network" "network"
    let ep ← decReqF asInt kvs "Epoch" "epoch"
    let sr ← decReqF asInt kvs "State-roots" "state_roots"
    let sh ← decOptF asStr none kvs "Sha256" "sha256"
    let ms ← decReqF asInt kvs "Messages sets" "messages_sets"
    let ix ← decReqF asStr kvs "Index size" "index_size"
    pure ⟨sv, ht, f3d, f3v, f3f, f3l, cf, nw, ep, sr, sh, ms, ix⟩
  | _ => none

/-- `SnapshotMetadata.model_validate` on a parsed JSON value; this is
snapshot.py `from_json` (lines 55-64) after `json.loads`. -/
def SnapshotMetadata.fromJsonV : Json → Option SnapshotMetadata
  | .jobj kvs => do
    let s ← decReqF Snapshot.fromJsonV kvs "Snapshot" "snapshot"
    let bi ← decOptF BuildInformation.fromJsonV (some defaultBuildInformation) kvs
      "Build Information" "build_information"
    pure ⟨s, bi⟩
  | _ => none

/-- An indent-level run of spaces. -/
def spaces (n : Nat) : String := String.mk (List.replicate n ' ')

mutual
/-- Rendering of a JSON tree with `indent=2`-style layout, modeling the
text produced by `model_dump_json(indent=2)` (string escaping aside). -/
def Json.render : Nat → Json → String
  | _, .jnull => "null"
  | _, .jbool true => "true"
  | _, .jbool false => "false"
  | _, .jint n => toString n
  | _, .jstr s => "\"" ++ s ++ "\""
  | _, .jarr [] => "[]"
  | ind, .jarr (x :: xs) =>
    "[\n" ++ Json.renderItems (ind + 2) x xs ++ "\n" ++ spaces ind ++ "]"
  | _, .jobj [] => "\x7b\x7d"
  | ind, .jobj (kv :: kvs) =>
    "\x7b\n" ++ Json.renderMembers (ind + 2) kv kvs ++ "\n" ++ spaces ind ++ "\x7d"
termination_by _ j => sizeOf j
/-- Comma-and-newline separated array items at a given indent. -/
def Json.renderItems : Nat → Json → List Json → String
  | ind, x, [] => spaces ind ++ Json.render ind x
  | ind, x, y :: ys =>
    spaces ind ++ Json.render ind x ++ ",\n" ++ Json.renderItems ind y ys
termination_by _ x xs => sizeOf x + sizeOf xs
/-- Comma-and-newline separated object members at a given indent. -/
def Json.renderMembers : Nat → (String × Json) → List (String × Json) → String
  | ind, (k, v), [] => spaces ind ++ "\"" ++ k ++ "\": " ++ Json.render ind v
  | ind, (k, v), kv :: kvs =>
    spaces ind ++ "\"" ++ k ++ "\": " ++ Json.render ind v ++ ",\n"
      ++ Json.renderMembers ind kv kvs
termination_by _ kv kvs => sizeOf kv + sizeOf kvs
end

/-- snapshot.py `to_json` (lines 66-71): `model_dump_json(by_alias=True,
indent=2)` as text. -/
def SnapshotMetadata.to_json (x : SnapshotMetadata) : String :=
  Json.render 0 x.toJsonV

/-! ### Path decomposition lemmas -/

theorem data_append (a b : String) : (a ++ b).data = a.data ++ b.data := rfl

theorem takeWhile_append_stop {α} (p : α → Bool) (l : List α) (c : α) (r : List α)
    (hl : ∀ x ∈ l, p x = true) (hc : p c = false) :
    (l ++ c :: r).takeWhile p = l := by
  induction l with
  | nil => simp [List.takeWhile_cons, hc]
  | cons a as ih =>
    have ha : p a = true := hl a (by simp)
    simp [List.takeWhile_cons, ha]
    exact ih (fun x hx => hl x (by simp [hx]))

theorem dropWhile_append_stop {α} (p : α → Bool) (l : List α) (c : α) (r : List α)
    (hl : ∀ x ∈ l, p x = true) (hc : p c = false) :
    (l ++ c :: r).dropWhile p = c :: r := by
  induction l with
  | nil => simp [List.dropWhile_cons, hc]
  | cons a as ih =>
    have ha : p a = true := hl a (by simp)
    simp [List.dropWhile_cons, ha]
    exact ih (fun x hx => hl x (by simp [hx]))

theorem basenameL_append (d bn : List Char) (h : ∀ c ∈ bn, c ≠ '/') :
    basenameL (d ++ '/' :: bn) = bn := by
  unfold basenameL
  rw [List.reverse_append, List.reverse_cons, List.append_assoc,
    List.singleton_append,
    takeWhile_append_stop _ bn.reverse '/' d.reverse
      (fun x hx => by simpa using h x (List.mem_reverse.mp hx)) (by decide),
    List.reverse_reverse]

theorem dirnameL_append (d bn : List Char) (h : ∀ c ∈ bn, c ≠ '/') :
    dirnameL (d ++ '/' :: bn) = d := by
  unfold dirnameL
  rw [List.reverse_append, List.reverse_cons, List.append_assoc,
    List.singleton_append,
    dropWhile_append_stop _ bn.reverse '/' d.reverse
      (fun x hx => by simpa using h x (List.mem_reverse.mp hx)) (by decide)]
  simp

theorem basename_split (d bn : String) (h : ∀ c ∈ bn.data, c ≠ '/') :
    basename (d ++ "/" ++ bn) = bn := by
  have hdata : (d ++ "/" ++ bn).data = d.data ++ '/' :: bn.data := by
    simp [data_append]
  simp only [basename, hdata, basenameL_append d.data bn.data h]

theorem dirname_split (d bn : String) (h : ∀ c ∈ bn.data, c ≠ '/') :
    dirname (d ++ "/" ++ bn) = d := by
  have hdata : (d ++ "/" ++ bn).data = d.data ++ '/' :: bn.data := by
    simp [data_append]
  simp only [dirname, hdata, dirnameL_append d.data bn.data h]

/-- Key and bucket of `r2_upload_artifact` for a path of the shape
`<dir>/<folder>/<basename>`: the key is `<CHAIN>/<folder>/<basename>` and
the bucket is selected from the folder alone, identically for all three
HEAD outcomes. -/
theorem r2_upload_artifact_folder (chain dir folder bn : String)
    (hf : ∀ c ∈ folder.data, c ≠ '/') (hbn : ∀ c ∈ bn.data, c ≠ '/')
    (head : S3Head) (putOk : Bool) :
    (r2_upload_artifact chain (dir ++ "/" ++ folder ++ "/" ++ bn) head putOk).key
        = chain ++ "/" ++ folder ++ "/" ++ bn
  ∧ (r2_upload_artifact chain (dir ++ "/" ++ folder ++ "/" ++ bn) head putOk).bucket
        = (if folder = "latest-v2" then .latestV2
           else if folder = "latest" then .latest else .archive) := by
  have hb : basename (dir ++ "/" ++ folder ++ "/" ++ bn) = bn := by
    have : dir ++ "/" ++ folder ++ "/" ++ bn = (dir ++ "/" ++ folder) ++ "/" ++ bn := by
      simp [String.append_assoc]
    rw [this, basename_split _ _ hbn]
  have hd : basename (dirname (dir ++ "/" ++ folder ++ "/" ++ bn)) = folder := by
    have : dir ++ "/" ++ folder ++ "/" ++ bn = (dir ++ "/" ++ folder) ++ "/" ++ bn := by
      simp [String.append_assoc]
    rw [this, dirname_split _ _ hbn, basename_split _ _ hf]
  cases head <;> simp [r2_upload_artifact, hb, hd]

/-! ### Claims C1-C4 -/

/-- C1 counterexample: for a `diff` snapshot, `validate_snapshot` reports
success although neither `forest_validate` nor `lotus_validate` ran (here
both would even have failed), refuting the claim that no snapshot variant
is reported valid without both checks passing. -/
theorem C1_counterexample :
    (validate_snapshot false false
      "/data/snapshots-archive/diff/forest_diff_testnet_2024-01-01_height_3000+3000.forest.car.zst"
      false).result = true
  ∧ (validate_snapshot false false
      "/data/snapshots-archive/diff/forest_diff_testnet_2024-01-01_height_3000+3000.forest.car.zst"
      false).ranForest = false
  ∧ (validate_snapshot false false
      "/data/snapshots-archive/diff/forest_diff_testnet_2024-01-01_height_3000+3000.forest.car.zst"
      false).ranLotus = false := by decide

/-- C1 (amended): for snapshots whose parent folder is `latest-v1`,
`latest-v2` or `lite`, `validate_snapshot` reports success exactly when
both validations ran and both returned true; for every other variant
(e.g. `diff`) it reports success while running neither check. -/
theorem C1_amended (forestOk lotusOk : Bool) (buildPath : String)
    (successBefore : Bool) :
    ((validate_snapshot forestOk lotusOk buildPath successBefore).result = true ↔
      (basename (dirname buildPath) ∉ (["latest-v1", "latest-v2", "lite"] : List String)
        ∨ (forestOk = true ∧ lotusOk = true)))
  ∧ ((validate_snapshot forestOk lotusOk buildPath successBefore).ranForest = true ↔
      basename (dirname buildPath) ∈ (["latest-v1", "latest-v2", "lite"] : List String))
  ∧ ((validate_snapshot forestOk lotusOk buildPath successBefore).ranLotus = true ↔
      (basename (dirname buildPath) ∈ (["latest-v1", "latest-v2", "lite"] : List String)
        ∧ forestOk = true)) := by
  by_cases h : basename (dirname buildPath) ∈ (["latest-v1", "latest-v2", "lite"] : List String) <;>
    cases forestOk <;> cases lotusOk <;> simp [validate_snapshot, h]

/-- C2 counterexample: on a successful upload the worker sends no chat
notification at all, refuting the claim that a success notification
threaded on `build_timestamp` is sent. -/
theorem C2_counterexample :
    ¬ ∃ e ∈ upload_process_snapshot false true 1 "envelope", e.isNotify = true := by
  decide

/-- C2 (amended): exactly one broker outcome per message: on timeout the
message is rejected with requeue and the failure metric incremented, with
nothing published; on success the message is acked and the consumed body
is republished to `upload`; on failure the message is rejected without
requeue and the body published to `upload-failed`.  No notification is
sent in any case. -/
theorem C2_amended (uploadOk : Bool) (tag : Nat) (body : String) :
    upload_process_snapshot true uploadOk tag body
        = [.incFailure, .reject tag true]
  ∧ upload_process_snapshot false true tag body
        = [.incSuccess, .ack tag, .produce .upload body]
  ∧ upload_process_snapshot false false tag body
        = [.incFailure, .reject tag false, .produce .uploadFailed body]
  ∧ (∀ timedOut : Bool, ∀ e ∈ upload_process_snapshot timedOut uploadOk tag body,
      e.isNotify = false)
  ∧ (∀ e ∈ upload_process_snapshot true uploadOk tag body, e.isProduce = false) := by
  refine ⟨rfl, rfl, rfl, ?_, ?_⟩
  · intro timedOut e he
    cases timedOut <;> cases uploadOk <;>
      simp [upload_process_snapshot] at he <;>
      rcases he with rfl | rfl | rfl <;> rfl
  · intro e he
    simp [upload_process_snapshot] at he
    rcases he with rfl | rfl <;> rfl

/-- C3 counterexample: a sha256 sidecar that already exists in the bucket
is *not* re-uploaded (`upload_file` is skipped and the call returns
`True`), refuting the claim that sidecars are overwritten regardless of
existence. -/
theorem C3_counterexample :
    (r2_upload_artifact "testnet"
      "/data/snapshots-archive/lite/forest_snapshot_testnet_2024-01-01_height_30000.forest.car.zst.sha256sum"
      .present true).didPut = false
  ∧ (r2_upload_artifact "testnet"
      "/data/snapshots-archive/lite/forest_snapshot_testnet_2024-01-01_height_30000.forest.car.zst.sha256sum"
      .present true).ok = true := by
  exact ⟨rfl, rfl⟩

/-- C3 (amended): each of the three puts (sha256 sidecar, metadata JSON
sidecar, main blob) issues a HEAD first, and for every one of them —
sidecars included — the put is skipped (and success reported) whenever
the object already exists; the put happens exactly on a 404. -/
theorem C3_amended (chain filePath : String) (putOk : Bool) :
    (∀ p ∈ upload_snapshot_puts filePath,
      (r2_upload_artifact chain p .present putOk).didPut = false
        ∧ (r2_upload_artifact chain p .present putOk).ok = true)
  ∧ ((r2_upload_artifact chain filePath .missing putOk).didPut = true
      ∧ (r2_upload_artifact chain filePath .missing putOk).ok = putOk)
  ∧ (r2_upload_artifact chain filePath .errorOther putOk).didPut = false := by
  refine ⟨?_, ⟨rfl, rfl⟩, rfl⟩
  intro p hp
  simp only [upload_snapshot_puts, List.mem_cons, List.not_mem_nil, or_false] at hp
  rcases hp with rfl | rfl | rfl <;> exact ⟨rfl, rfl⟩

/-- C4 counterexample: an artifact in a `latest-v1` folder is routed to
the archive bucket, not to `LATEST_BUCKET_NAME` as claimed. -/
theorem C4_counterexample :
    (r2_upload_artifact "testnet"
      "/data/snapshots/latest-v1/forest_snapshot_testnet_2024-01-01_height_30000.forest.car.zst"
      .missing true).bucket = BucketSel.archive
  ∧ BucketSel.archive ≠ BucketSel.latest := by
  exact ⟨rfl, by decide⟩

/-- C4 (amended): the destination bucket is selected solely from the
artifact's parent folder name, but as follows: `lite`, `diff` and
`latest-v1` artifacts go to `ARCHIVE_BUCKET_NAME`, `latest-v2` artifacts
to `LATEST_V2_BUCKET_NAME`, and only a folder literally named `latest`
goes to `LATEST_BUCKET_NAME`; the key is always
`<network>/<folder>/<basename>`. -/
theorem C4_amended (chain dir bn : String) (hbn : ∀ c ∈ bn.data, c ≠ '/')
    (head : S3Head) (putOk : Bool) :
    ((r2_upload_artifact chain (dir ++ "/" ++ "lite" ++ "/" ++ bn) head putOk).bucket
        = .archive
      ∧ (r2_upload_artifact chain (dir ++ "/" ++ "lite" ++ "/" ++ bn) head putOk).key
        = chain ++ "/" ++ "lite" ++ "/" ++ bn)
  ∧ ((r2_upload_artifact chain (dir ++ "/" ++ "diff" ++ "/" ++ bn) head putOk).bucket
        = .archive
      ∧ (r2_upload_artifact chain (dir ++ "/" ++ "diff" ++ "/" ++ bn) head putOk).key
        = chain ++ "/" ++ "diff" ++ "/" ++ bn)
  ∧ ((r2_upload_artifact chain (dir ++ "/" ++ "latest-v1" ++ "/" ++ bn) head putOk).bucket
        = .archive
      ∧ (r2_upload_artifact chain (dir ++ "/" ++ "latest-v1" ++ "/" ++ bn) head putOk).key
        = chain ++ "/" ++ "latest-v1" ++ "/" ++ bn)
  ∧ ((r2_upload_artifact chain (dir ++ "/" ++ "latest-v2" ++ "/" ++ bn) head putOk).bucket
        = .latestV2
      ∧ (r2_upload_artifact chain (dir ++ "/" ++ "latest-v2" ++ "/" ++ bn) head putOk).key
        = chain ++ "/" ++ "latest-v2" ++ "/" ++ bn)
  ∧ ((r2_upload_artifact chain (dir ++ "/" ++ "latest" ++ "/" ++ bn) head putOk).bucket
        = .latest
      ∧ (r2_upload_artifact chain (dir ++ "/" ++ "latest" ++ "/" ++ bn) head putOk).key
        = chain ++ "/" ++ "latest" ++ "/" ++ bn) := by
  have h1 := r2_upload_artifact_folder chain dir "lite" bn (by decide) hbn head putOk
  have h2 := r2_upload_artifact_folder chain dir "diff" bn (by decide) hbn head putOk
  have h3 := r2_upload_artifact_folder chain dir "latest-v1" bn (by decide) hbn head putOk
  have h4 := r2_upload_artifact_folder chain dir "latest-v2" bn (by decide) hbn head putOk
  have h5 := r2_upload_artifact_folder chain dir "latest" bn (by decide) hbn head putOk
  refine ⟨⟨?_, h1.1⟩, ⟨?_, h2.1⟩, ⟨?_, h3.1⟩, ⟨?_, h4.1⟩, ⟨?_, h5.1⟩⟩
  · rw [h1.2]; decide
  · rw [h2.2]; decide
  · rw [h3.2]; decide
  · rw [h4.2]; decide
  · rw [h5.2]; decide

/-! ### Compute and build loop lemmas -/

theorem mem_pyRange {e start stop step : Nat} (h : e ∈ pyRange start stop step) :
    ∃ k, e = start + k * step := by
  simp only [pyRange, List.mem_map, List.mem_range] at h
  obtain ⟨k, _, rfl⟩ := h
  exact ⟨k, rfl⟩

theorem perEpochRun_no_produce (p : Nat → Bool) :
    ∀ l, ∀ e ∈ (perEpochRun p l).1, e.isProduce = false := by
  intro l
  induction l with
  | nil => intro e he; simp [perEpochRun] at he
  | cons a rest ih =>
    intro e he
    by_cases hp : p a = true
    · simp only [perEpochRun, hp, if_true, List.mem_cons] at he
      rcases he with rfl | he
      · rfl
      · exact ih e he
    · simp only [perEpochRun, hp, if_false, Bool.false_eq_true, List.mem_cons,
        List.not_mem_nil, or_false] at he
      rcases he with rfl | rfl | rfl <;> rfl

theorem perEpochRun_all_ok (p : Nat → Bool) :
    ∀ l, (∀ e ∈ l, p e = true) → (perEpochRun p l).2 = true := by
  intro l
  induction l with
  | nil => intro _; rfl
  | cons a rest ih =>
    intro h
    have ha := h a (by simp)
    simp only [perEpochRun, ha, if_true]
    exact ih (fun e he => h e (by simp [he]))

theorem computeMainLoop_produce (B : Nat) (bOk pOk : Nat → Bool) :
    ∀ l, ∀ eff ∈ computeMainLoop B bOk pOk l, ∀ q s, eff = Eff.produce q s →
      q = RQueue.compute ∧ ∃ e ∈ l, s = toString (e + B) := by
  intro l
  induction l with
  | nil => intro eff he; simp [computeMainLoop] at he
  | cons a rest ih =>
    intro eff heff q s heq
    subst heq
    simp only [computeMainLoop] at heff
    rcases List.mem_append.mp heff with h1 | h2
    · by_cases hb : bOk a = true
      · simp only [compute_state, hb, if_true, List.mem_cons, List.not_mem_nil,
          or_false] at h1
        rcases h1 with h | h | h
        · simp at h
        · simp at h
        · injection h with hq hs
          subst hq; subst hs
          exact ⟨rfl, a, by simp, rfl⟩
      · have hb2 : bOk a = false := by revert hb; cases bOk a <;> simp
        exfalso
        simp only [compute_state, hb2, Bool.false_eq_true, if_false] at h1
        rcases List.mem_cons.mp h1 with h | h
        · simp at h
        rcases List.mem_append.mp h with h | h
        · have := perEpochRun_no_produce pOk _ _ h
          simp [Eff.isProduce] at this
        · by_cases hr : (perEpochRun pOk (pyRange a (a + B) 1)).2 = true
          · rw [if_pos hr] at h; simp at h
          · rw [if_neg hr] at h; simp at h
    · by_cases hc : (compute_state B a (bOk a) pOk).2 = true
      · rw [if_pos hc] at h2
        obtain ⟨hq, e, he, hs⟩ := ih _ h2 q s rfl
        exact ⟨hq, e, List.mem_cons_of_mem _ he, hs⟩
      · rw [if_neg hc] at h2
        simp at h2

/-! ### Claims C5-C7 and C9 -/

/-- C5: evaluation of the Build worker's path resolution at a failing
input.  Building the lite snapshot for epoch 30000 while the folder
listing contains the (legitimately co-resident) file for epoch 300000,
`_resolve_snapshot_path` matches `height_30000` as a substring of
`height_300000`, so the published `build_path` parses to epoch 300000
although `build_information.epoch` is 30000 — contradicting the claim
and the function's own stated intent. -/
theorem C5_resolve_epoch_mismatch :
    publishedBuildPath "/data/snapshots-archive/lite" "testnet" "2024-01-01" 30000 false
        ["forest_snapshot_testnet_2025-07-04_height_300000.forest.car.zst"]
      = "/data/snapshots-archive/lite/forest_snapshot_testnet_2025-07-04_height_300000.forest.car.zst"
  ∧ parseHeight (basename
      (publishedBuildPath "/data/snapshots-archive/lite" "testnet" "2024-01-01" 30000 false
        ["forest_snapshot_testnet_2025-07-04_height_300000.forest.car.zst"]))
      = some 300000
  ∧ (300000 : Nat) ≠ 30000 := by
  refine ⟨by decide, by decide, by decide⟩

/-- C6: the Compute worker only publishes cursors divisible by
`COMPUTE_BATCH_SIZE` — the recovered start (queue head or
`DEFAULT_START_EPOCH`) is rounded down to a batch multiple and every
published cursor is that start plus a whole number of batches — and the
Build worker's historic mode only processes lite epochs divisible by
30000 and diff epochs divisible by 3000. -/
theorem C6_batch_alignment (B dflt : Nat) (queueHead : Option Nat)
    (currentEpoch : Nat) (batchOk perEpochOk : Nat → Bool)
    (liteHead diffHead curL curD : Nat) :
    (∀ eff ∈ compute_main B dflt queueHead currentEpoch batchOk perEpochOk,
      ∀ q s, eff = Eff.produce q s →
        q = RQueue.compute ∧ ∃ c : Nat, s = toString c ∧ c % B = 0
          ∧ ∃ k : Nat, c = (queueHead.getD dflt) / B * B + k * B)
  ∧ (∀ e ∈ buildHistoricLiteEpochs liteHead curL, e % 30000 = 0)
  ∧ (∀ e ∈ buildHistoricDiffEpochs diffHead curD, e % 3000 = 0) := by
  refine ⟨?_, ?_, ?_⟩
  · intro eff heff q s heq
    simp only [compute_main] at heff
    obtain ⟨hq, e, he, hs⟩ := computeMainLoop_produce B batchOk perEpochOk _ eff heff q s heq
    obtain ⟨k, rfl⟩ := mem_pyRange he
    refine ⟨hq, _, hs, ?_, k + 1, by ring⟩
    have harith : (queueHead.getD dflt) / B * B + k * B + B
        = ((queueHead.getD dflt) / B + k + 1) * B := by ring
    rw [harith, Nat.mul_mod_left]
  · intro e he
    simp only [buildHistoricLiteEpochs, liteDepth] at he
    split at he
    · obtain ⟨k, rfl⟩ := mem_pyRange he
      have harith : liteHead / 30000 * 30000 + 30000 + k * 30000
          = (liteHead / 30000 + 1 + k) * 30000 := by ring
      rw [harith, Nat.mul_mod_left]
    · simp at he
  · intro e he
    simp only [buildHistoricDiffEpochs, diffDepth] at he
    split at he
    · obtain ⟨k, rfl⟩ := mem_pyRange he
      have harith : diffHead / 3000 * 3000 + 3000 + k * 3000
          = (diffHead / 3000 + 1 + k) * 3000 := by ring
      rw [harith, Nat.mul_mod_left]
    · simp at he

/-- C7: if the target snapshot path already exists when a build is
attempted, `build_snapshot` returns `(path, true)` immediately: no
effects at all, in particular no subprocess spawn. -/
theorem C7_no_spawn_on_existing (fuel epoch : Nat) (folder chain date : String)
    (diff : Bool) (argv metaJson : String) (buildTs : Option String)
    (attempts : Nat → BuildAttempt) (fs : List String)
    (h : snapshotTargetPath folder chain date epoch diff ∈ fs) :
    build_snapshot fuel epoch folder chain date diff argv metaJson buildTs attempts fs
      = ([], (snapshotTargetPath folder chain date epoch diff, true)) := by
  simp [build_snapshot, h]

/-- C7 witness: a concrete build attempt against a file system already
holding the target path returns it with success and an empty trace. -/
theorem C7_no_spawn_on_existing_witness :
    build_snapshot 5 30000 "/data/snapshots-archive/lite" "testnet" "2024-01-01" false
        "argv" "meta" none (fun _ => ⟨0, false, true, []⟩)
        [snapshotTargetPath "/data/snapshots-archive/lite" "testnet" "2024-01-01" 30000 false]
      = ([], (snapshotTargetPath "/data/snapshots-archive/lite" "testnet" "2024-01-01" 30000 false,
          true)) :=
  C7_no_spawn_on_existing 5 30000 "/data/snapshots-archive/lite" "testnet" "2024-01-01"
    false "argv" "meta" none (fun _ => ⟨0, false, true, []⟩) _ (List.mem_singleton.mpr rfl)

/-- C9: when the whole-batch invocation fails and the per-epoch fallback
succeeds for every epoch of the batch, `compute_state` returns normally
without publishing anything to `compute`; more generally a cursor publish
can only happen when the batch invocation itself exited zero. -/
theorem C9_fallback_no_publish (B epoch : Nat) (perEpochOk : Nat → Bool)
    (batchOk : Bool)
    (hall : ∀ e ∈ pyRange epoch (epoch + B) 1, perEpochOk e = true) :
    ((compute_state B epoch false perEpochOk).1.all (fun e => !e.isProduce) = true)
  ∧ (compute_state B epoch false perEpochOk).2 = true
  ∧ (∀ eff ∈ (compute_state B epoch batchOk perEpochOk).1,
      eff.isProduce = true → batchOk = true) := by
  have hret : (perEpochRun perEpochOk (pyRange epoch (epoch + B) 1)).2 = true :=
    perEpochRun_all_ok _ _ hall
  refine ⟨?_, ?_, ?_⟩
  · rw [List.all_eq_true]
    intro e he
    simp only [compute_state, Bool.false_eq_true, if_false, hret, if_true,
      List.append_nil] at he
    rcases List.mem_cons.mp he with h | h
    · subst h; rfl
    · have := perEpochRun_no_produce perEpochOk _ _ h
      simp [this]
  · simp [compute_state, hret]
  · intro eff heff hP
    cases batchOk
    · exfalso
      simp only [compute_state, Bool.false_eq_true, if_false] at heff
      rcases List.mem_cons.mp heff with h | h
      · subst h; simp [Eff.isProduce] at hP
      rcases List.mem_append.mp h with h | h
      · have := perEpochRun_no_produce perEpochOk _ _ h
        rw [this] at hP; cases hP
      · by_cases hr : (perEpochRun perEpochOk (pyRange epoch (epoch + B) 1)).2 = true
        · rw [if_pos hr] at h; simp at h
        · rw [if_neg hr] at h
          simp only [List.mem_cons, List.not_mem_nil, or_false] at h
          subst h; simp [Eff.isProduce] at hP
    · rfl

/-- C9 witness: a concrete batch of two epochs whose batch invocation
fails but whose fallback succeeds on both epochs yields a trace without
any publish and a normal return. -/
theorem C9_fallback_no_publish_witness :
    ((compute_state 2 0 false (fun _ => true)).1.all (fun e => !e.isProduce) = true)
  ∧ (compute_state 2 0 false (fun _ => true)).2 = true
  ∧ (∀ eff ∈ (compute_state 2 0 false (fun _ => true)).1,
      eff.isProduce = true → false = true) :=
  C9_fallback_no_publish 2 0 (fun _ => true) false (by decide)

/-! ### Parser lemmas and claim C10 -/

theorem dictGet_dictSet_self (d : List (String × PyVal)) (k : String) (v : PyVal) :
    dictGet (dictSet d k v) k = some v := by
  induction d with
  | nil => simp [dictGet, dictSet]
  | cons p rest ih =>
    obtain ⟨k', v'⟩ := p
    by_cases h : k = k'
    · simp [dictGet, dictSet, h]
    · simp [dictGet, dictSet, h, ih]

/-- The parser state invariant: a truthy current key is always bound in
the dict. -/
def GatherInv (st : List (String × PyVal) × Option String) : Prop :=
  ∀ k, st.2 = some k → k ≠ "" → (dictGet st.1 k).isSome = true

theorem stepLine_ok (st : List (String × PyVal) × Option String) (line : String)
    (h : GatherInv st) :
    ∃ st', stepLine st line = .ok st' ∧ GatherInv st' := by
  unfold stepLine
  by_cases hblank : pyStrip line = ""
  · rw [if_pos hblank]; exact ⟨st, rfl, h⟩
  · rw [if_neg hblank]
    match hsplit : splitFirstColon line.data with
    | some (k, v) =>
      by_cases hv : pyStrip (String.mk v) ≠ ""
      · refine ⟨(dictSet st.1 (pyStrip (String.mk k)) (.s (pyStrip (String.mk v))),
          some (pyStrip (String.mk k))), ?_, ?_⟩
        · simp only [hsplit]
          rw [if_pos hv]
        · intro k' hk' _
          cases hk'
          simp [dictGet_dictSet_self]
      · refine ⟨(dictSet st.1 (pyStrip (String.mk k)) (.l []),
          some (pyStrip (String.mk k))), ?_, ?_⟩
        · simp only [hsplit]
          rw [if_neg hv]
        · intro k' hk' _
          cases hk'
          simp [dictGet_dictSet_self]
    | none =>
      match hck : st.2 with
      | some ck =>
        by_cases hcke : ck ≠ ""
        · have hbound := h ck hck (by simpa using hcke)
          match hget : dictGet st.1 ck with
          | some (.l xs) =>
            refine ⟨(dictSet st.1 ck (.l (xs ++ [pyStrip line])), some ck), ?_, ?_⟩
            · simp only [hsplit, hck, hget]
              rw [if_pos hcke]
            · intro k' hk' _
              cases hk'
              simp [dictGet_dictSet_self]
          | some (.s old) =>
            refine ⟨(dictSet st.1 ck (.l [old, pyStrip line]), some ck), ?_, ?_⟩
            · simp only [hsplit, hck, hget]
              rw [if_pos hcke]
            · intro k' hk' _
              cases hk'
              simp [dictGet_dictSet_self]
          | none => rw [hget] at hbound; cases hbound
        · refine ⟨st, ?_, h⟩
          simp only [hsplit, hck]
          rw [if_neg hcke]
      | none =>
        refine ⟨st, ?_, h⟩
        simp only [hsplit, hck]

theorem runLines_ok (lines : List String) :
    ∀ st, GatherInv st → ∃ st', runLines st lines = .ok st' ∧ GatherInv st' := by
  induction lines with
  | nil => intro st h; exact ⟨st, rfl, h⟩
  | cons line rest ih =>
    intro st h
    obtain ⟨st', hstep, hinv⟩ := stepLine_ok st line h
    obtain ⟨st'', hrun, hinv'⟩ := ih st' hinv
    exact ⟨st'', by simp [runLines, hstep, hrun], hinv'⟩

theorem runLines_append (l1 l2 : List String) :
    ∀ st, runLines st (l1 ++ l2) =
      match runLines st l1 with
      | .ok st' => runLines st' l2
      | .error e => .error e := by
  induction l1 with
  | nil => intro st; simp [runLines]
  | cons line rest ih =>
    intro st
    simp only [List.cons_append, runLines]
    match stepLine st line with
    | .ok st' => exact ih st'
    | .error e => rfl

theorem stripL_ne_nil {l : List Char} {c : Char} (hc : c ∈ l)
    (hw : c.isWhitespace = false) : stripL l ≠ [] := by
  intro h
  have h1 : (l.dropWhile Char.isWhitespace).reverse.dropWhile Char.isWhitespace = [] := by
    have := h
    unfold stripL at this
    exact List.reverse_eq_nil_iff.mp this
  have h2 : ∀ x ∈ l.dropWhile Char.isWhitespace, x.isWhitespace = true := by
    intro x hx
    exact List.dropWhile_eq_nil_iff.mp h1 x (List.mem_reverse.mpr hx)
  have h4 : ∀ x ∈ l, x.isWhitespace = true := by
    intro x hx
    rw [← List.takeWhile_append_dropWhile (p := Char.isWhitespace) (l := l)] at hx
    rcases List.mem_append.mp hx with hx | hx
    · exact List.mem_takeWhile_imp hx
    · exact h2 x hx
  rw [h4 c hc] at hw
  cases hw

theorem splitFirstColon_append (k v : List Char) (hk : ':' ∉ k) :
    splitFirstColon (k ++ ':' :: v) = some (k, v) := by
  induction k with
  | nil => simp [splitFirstColon]
  | cons c rest ih =>
    have hc : c ≠ ':' := fun h => hk (by simp [h])
    have hrest : ':' ∉ rest := fun h => hk (by simp [h])
    simp [splitFirstColon, hc, ih hrest]

/-- C10: for every pair of line lists the parser returns a dict without
raising; a continuation line occurring before any `key: value` line is
silently discarded; and when the same key is bound again by a later line
(in particular by the archive-info list, processed after the
archive-metadata list) the later simple `key: value` occurrence
overwrites the earlier binding. -/
theorem C10_gather_archive_metadata (md info : List String) (lead k v : String)
    (hlead1 : pyStrip lead ≠ "") (hlead2 : splitFirstColon lead.data = none)
    (hk : ':' ∉ k.data) (hv : pyStrip v = v) (hv2 : v ≠ "") :
    (∃ d, gather_archive_metadata md info = .ok d)
  ∧ gather_archive_metadata (lead :: md) info = gather_archive_metadata md info
  ∧ (∃ d, gather_archive_metadata md (info ++ [k ++ ":" ++ v]) = .ok d
      ∧ dictGet d (pyStrip k) = some (.s v)) := by
  have hinv0 : GatherInv ([], none) := by intro k' hk'; cases hk'
  obtain ⟨st, hst, hinvst⟩ := runLines_ok (md ++ info) ([], none) hinv0
  refine ⟨⟨st.1, by simp [gather_archive_metadata, hst, Except.map]⟩, ?_, ?_⟩
  · have hstep : stepLine ([], none) lead = .ok ([], none) := by
      unfold stepLine
      rw [if_neg hlead1, hlead2]
    simp only [gather_archive_metadata, List.cons_append, runLines, hstep]
    rfl
  · have hlast : (k ++ ":" ++ v).data = k.data ++ ':' :: v.data := by
      have h0 : (k ++ ":" ++ v).data = (k.data ++ [':']) ++ v.data := rfl
      rw [h0, List.append_assoc, List.singleton_append]
    have hne : pyStrip (k ++ ":" ++ v) ≠ "" := by
      intro hemp
      have hmem : ':' ∈ (k ++ ":" ++ v).data := by rw [hlast]; simp
      have : stripL (k ++ ":" ++ v).data ≠ [] := stripL_ne_nil hmem (by decide)
      exact this (congrArg String.data hemp)
    have hstep : stepLine st (k ++ ":" ++ v)
        = .ok (dictSet st.1 (pyStrip k) (.s v), some (pyStrip k)) := by
      unfold stepLine
      rw [if_neg hne, hlast, splitFirstColon_append _ _ hk]
      have hmkv : pyStrip (String.mk v.data) = v := hv
      have hmkk : pyStrip (String.mk k.data) = pyStrip k := rfl
      simp only [hmkv, hmkk, hv2, ne_eq, not_false_iff, if_true]
    refine ⟨dictSet st.1 (pyStrip k) (.s v), ?_, dictGet_dictSet_self _ _ _⟩
    have hassoc : md ++ (info ++ [k ++ ":" ++ v]) = (md ++ info) ++ [k ++ ":" ++ v] := by
      simp
    simp only [gather_archive_metadata, hassoc]
    rw [runLines_append, hst]
    simp only [runLines, hstep, Except.map]

/-- C10 witness: a concrete evaluation — a leading continuation line is
discarded and the archive-info occurrence of `Network` overwrites the
archive-metadata one. -/
theorem C10_gather_archive_metadata_witness :
    ∃ d, gather_archive_metadata ["Network: calibnet"]
        (["Epoch: 30000"] ++ ["Network" ++ ":" ++ "mainnet"]) = .ok d
      ∧ dictGet d (pyStrip "Network") = some (.s "mainnet") :=
  (C10_gather_archive_metadata ["Network: calibnet"] ["Epoch: 30000"]
    "continuation" "Network" "mainnet" (by decide) (by decide) (by decide)
    (by decide) (by decide)).2.2

/-! ### Envelope codec roundtrip and claim C8 -/

theorem asDT_encDT (d : PyDatetime) : asDT (encDT d) = some d := rfl

theorem isNull_jbool (b : Bool) : (Json.jbool b).isNull = false := rfl

theorem isNull_jstr (s : String) : (Json.jstr s).isNull = false := rfl

theorem isNull_jint (n : Int) : (Json.jint n).isNull = false := rfl

theorem isNull_jnull : (Json.jnull).isNull = true := rfl

theorem isNull_encDT (d : PyDatetime) : (encDT d).isNull = false := rfl

theorem isNull_valJson (v : Validation) : (Validation.toJsonV v).isNull = false := rfl

theorem isNull_biJson (b : BuildInformation) :
    (BuildInformation.toJsonV b).isNull = false := rfl

theorem asStrList_map (l : List String) : asStrList (l.map Json.jstr) = some l := by
  induction l with
  | nil => rfl
  | cons s rest ih => simp [asStrList, asStr, ih]

theorem asTipset_encTipset (t : String ⊕ List String) :
    asTipset (encTipset t) = some t := by
  cases t with
  | inl s => rfl
  | inr l => simp [encTipset, asTipset, asStrList_map]

theorem validation_fromJson_toJson (x : Validation) :
    Validation.fromJsonV x.toJsonV = some x := by
  obtain ⟨s, fv, lv, vd⟩ := x
  cases s <;> cases fv <;> cases lv <;> cases vd <;>
    simp [Validation.fromJsonV, Validation.toJsonV, decOptF, getField, jlookup,
      encOpt, isNull_jbool, isNull_jstr, isNull_jnull, isNull_encDT,
      asBool, asStr, asDT_encDT, Option.bind]

theorem buildInformation_fromJson_toJson (x : BuildInformation) :
    BuildInformation.fromJsonV x.toJsonV = some x := by
  obtain ⟨e, ed, bp, bt, bd, va⟩ := x
  cases e <;> cases ed <;> cases bp <;> cases bt <;> cases bd <;> cases va <;>
    simp [BuildInformation.fromJsonV, BuildInformation.toJsonV, decOptF, getField,
      jlookup, encOpt, isNull_jint, isNull_jstr, isNull_jnull, isNull_encDT,
      isNull_valJson, asInt, asStr, asDT_encDT, validation_fromJson_toJson,
      Option.bind]

theorem snapshot_fromJson_toJson (x : Snapshot) :
    Snapshot.fromJsonV x.toJsonV = some x := by
  obtain ⟨sv, ht, f3d, f3v, f3f, f3l, cf, nw, ep, sr, sh, ms, ix⟩ := x
  cases f3d <;> cases f3v <;> cases f3f <;> cases f3l <;> cases sh <;>
    simp [Snapshot.fromJsonV, Snapshot.toJsonV, decOptF, decReqF, getField,
      jlookup, encOpt, isNull_jint, isNull_jstr, isNull_jnull,
      asInt, asStr, asTipset_encTipset, Option.bind]

theorem snapshotMetadata_fromJson_toJson (x : SnapshotMetadata) :
    SnapshotMetadata.fromJsonV x.toJsonV = some x := by
  obtain ⟨s, bi⟩ := x
  cases bi <;>
    simp [SnapshotMetadata.fromJsonV, SnapshotMetadata.toJsonV, decOptF, decReqF,
      getField, jlookup, encOpt, isNull_jnull, isNull_biJson,
      snapshot_fromJson_toJson, buildInformation_fromJson_toJson, Option.bind]

/-- C8: deserializing a Snapshot Metadata envelope and serializing it
again yields identical JSON text — `model_validate` recovers the exact
model value from its alias-keyed dump, so `to_json ∘ from_json` is the
identity on serialized envelopes. -/
theorem C8_envelope_roundtrip (m : SnapshotMetadata) :
    (SnapshotMetadata.fromJsonV m.toJsonV).map SnapshotMetadata.to_json
        = some m.to_json
  ∧ SnapshotMetadata.fromJsonV m.toJsonV = some m := by
  rw [snapshotMetadata_fromJson_toJson m]
  exact ⟨rfl, rfl⟩

/-! ### Claim witnesses at concrete inputs -/

/-- C1 witness: a lite snapshot with both validations passing is
reported valid. -/
theorem C1_amended_witness :
    (validate_snapshot true true "/data/snapshots/lite/snap.forest.car.zst" false).result
      = true :=
  ((C1_amended true true "/data/snapshots/lite/snap.forest.car.zst" false).1).mpr
    (Or.inr ⟨rfl, rfl⟩)

/-- C2 witness: the timeout trace's first effect is not a notification. -/
theorem C2_amended_witness : Eff.isNotify Eff.incFailure = false :=
  (C2_amended true 1 "body").2.2.2.1 true Eff.incFailure (by decide)

/-- C3 witness: an already-present sha256 sidecar is skipped. -/
theorem C3_amended_witness :
    (r2_upload_artifact "testnet" ("/d/lite/s.zst" ++ ".sha256sum") .present true).didPut
      = false :=
  ((C3_amended "testnet" "/d/lite/s.zst" true).1 ("/d/lite/s.zst" ++ ".sha256sum")
    (by simp [upload_snapshot_puts])).1

/-- C4 witness: a concrete lite artifact goes to the archive bucket. -/
theorem C4_amended_witness :
    (r2_upload_artifact "testnet"
      ("/data" ++ "/" ++ "lite" ++ "/" ++ "snap.forest.car.zst") .missing true).bucket
      = BucketSel.archive :=
  ((C4_amended "testnet" "/data" "snap.forest.car.zst" (by decide) .missing true).1).1

/-- C6 witness: the first lite epoch processed from a fresh cursor is
divisible by 30000. -/
theorem C6_batch_alignment_witness : (30000 : Nat) % 30000 = 0 :=
  (C6_batch_alignment 100 0 none 0 (fun _ => true) (fun _ => true) 0 0 70000 0).2.1
    30000 (by decide)

/-- C8 witness: a concrete envelope survives the roundtrip. -/
theorem C8_envelope_roundtrip_witness :
    SnapshotMetadata.fromJsonV
        (SnapshotMetadata.toJsonV
          ⟨⟨"1", .inl "bafyCid", none, none, none, none, "zstd", "testnet", 100, 900,
            none, 1, "1 KiB"⟩, none⟩)
      = some ⟨⟨"1", .inl "bafyCid", none, none, none, none, "zstd", "testnet", 100, 900,
            none, 1, "1 KiB"⟩, none⟩ :=
  (C8_envelope_roundtrip
    ⟨⟨"1", .inl "bafyCid", none, none, none, none, "zstd", "testnet", 100, 900,
      none, 1, "1 KiB"⟩, none⟩).2

end ForestSnapshots
